import Mathlib

/-!
Shallow embedding of the MedScribe backend's approval-workflow and
patient-identity-reconciliation route handlers, together with proofs of the
specification's claims about them.

The relational store (Supabase/Postgres) is modelled as lists of rows; a
`select ... .eq(...)` becomes `List.filter`, `.single()` becomes `single?`
(exactly one row, else an error, matching PostgREST), `update ... .eq(...)`
becomes `updateWhere` (rewrites every matching row in place), and `insert`
appends. Fallible writes are modelled with explicit fault flags, mirroring
the `if (error) return ...` branches of the handlers. Ids are `Nat`,
nullable columns are `Option`, and JavaScript truthiness on strings
(`!s` is true for `""`, `null`, `undefined`) is `truthy`.
-/

namespace MedScribe

/-- One row of the `profiles` table. -/
structure Profile where
  id : Nat
  full_name : Option String
  phone : Option String
  gender : Option String
  dob : Option String
  role : String
  approval_status : String
deriving Repr, DecidableEq

/-- One row of the `hospitals` table. -/
structure Hospital where
  id : Nat
  name : String
  address : String
  hospital_type : String
  admin_profile_id : Option Nat
  status : String
deriving Repr, DecidableEq

/-- One row of the `doctor_profiles` table. -/
structure DoctorProfileRow where
  profile_id : Nat
  specialization : String
  hospital_id : Option Nat
  license_number : String
  cnic : String
  approval_status : String
deriving Repr, DecidableEq

/-- One row of the `doctor_assistant_profiles` table. -/
structure AssistantLinkRow where
  profile_id : Nat
  doctor_profile_id : Nat
  hospital_id : Option Nat
  approval_status : String
deriving Repr, DecidableEq

/-- One row of the `patient_profiles` table. -/
structure PatientProfileRow where
  profile_id : Nat
  hospital_id : Option Nat
  cnic : String
  created_by : Nat
  created_at : Nat
deriving Repr, DecidableEq

/-- The relational store: the five tables the workflow touches, plus the
id the database will hand to the next generated `profiles` row. -/
structure Store where
  profiles : List Profile
  hospitals : List Hospital
  doctor_profiles : List DoctorProfileRow
  doctor_assistant_profiles : List AssistantLinkRow
  patient_profiles : List PatientProfileRow
  nextId : Nat
deriving Repr, DecidableEq

/-- PostgREST `.single()`: succeeds exactly when the filtered result has one
row, errors (PGRST116 or a multiplicity error) otherwise. -/
def single? {α : Type} (l : List α) : Option α :=
  match l with
  | [x] => some x
  | _ => none

/-- `update(payload).eq(col, v)`: rewrite every row matching the filter. -/
def updateWhere {α : Type} (l : List α) (p : α → Bool) (f : α → α) : List α :=
  l.map (fun x => if p x then f x else x)

/-- JavaScript truthiness of a possibly-absent string: `null`, `undefined`
and `""` are falsy. -/
def truthy : Option String → Bool
  | none => false
  | some s => s ≠ ""

/-- JavaScript `a ?? b` on nullable strings (nullish coalescing). -/
def nullish (a b : Option String) : Option String :=
  match a with
  | some v => some v
  | none => b

/-- JavaScript `s || null`: an empty string collapses to null. -/
def orNull : Option String → Option String
  | some "" => none
  | x => x

/-- Split a character list into maximal whitespace-free words (the second
argument accumulates the current word, reversed). -/
def wordsAux : List Char → List Char → List (List Char)
  | [], acc => if acc = [] then [] else [acc.reverse]
  | c :: cs, acc =>
    if c.isWhitespace then
      if acc = [] then wordsAux cs [] else acc.reverse :: wordsAux cs []
    else wordsAux cs (c :: acc)

/-- Join words with single spaces. -/
def joinSpace : List (List Char) → List Char
  | [] => []
  | [w] => w
  | w :: ws => w ++ ' ' :: joinSpace ws

/-- `normalize` from POST /patients:
`s.toString().trim().replace(/\s+/g, " ").toLowerCase()` — trimming and
collapsing every whitespace run to one space is the same as joining the
whitespace-separated words with single spaces, then lowercasing each
character. -/
def normalize (s : String) : String :=
  String.mk ((joinSpace (wordsAux s.data [])).map Char.toLower)

/-- `requireRole(...roles)` middleware: 403 unless a profile is attached and
its role is in the list; approval status is NOT consulted. `true` = pass. -/
def requireRole (roles : List String) (profile : Option Profile) : Bool :=
  match profile with
  | none => false
  | some p => roles.contains p.role

/-- `requireApprovedRole(...roles)` middleware: like `requireRole` but also
403 unless `approval_status == "approved"`. `true` = pass. -/
def requireApprovedRole (roles : List String) (profile : Option Profile) : Bool :=
  match profile with
  | none => false
  | some p => roles.contains p.role && p.approval_status == "approved"

/-- The hospital-admin router's gate: `router.use(authMiddleware,
requireApprovedRole("hospital_admin"))`. -/
def hospitalAdminRouterGate (profile : Option Profile) : Bool :=
  requireApprovedRole ["hospital_admin"] profile

/-- The doctor router's gate: `router.use(authMiddleware, requireRole("doctor"))`. -/
def doctorRouterGate (profile : Option Profile) : Bool :=
  requireRole ["doctor"] profile

/-- The assistant router's gate: `router.use(authMiddleware,
requireRole("doctor_assistant"))`. -/
def assistantRouterGate (profile : Option Profile) : Bool :=
  requireRole ["doctor_assistant"] profile

/-- Outcome of a simple approve/reject handler: `{success:true}` or an error
with HTTP status and message. -/
inductive ApiResp where
  | success
  | err (code : Nat) (msg : String)
deriving Repr, DecidableEq

/-- Fault injection for a handler that performs two coupled writes: whether
the first or the second database update reports an error. A failed update
writes nothing. -/
structure WriteFaults where
  firstFails : Bool
  secondFails : Bool
deriving Repr, DecidableEq

/-- POST /hospital-admin/doctors/:profileId/approve. Updates
`doctor_profiles` (by `profile_id` only — the caller's hospitals are never
consulted), then `profiles`. -/
def approveDoctor (s : Store) (profileId : Nat) (f : WriteFaults) : Store × ApiResp :=
  if f.firstFails then (s, .err 500 "Failed to update doctor profile")
  else
    let rows1 := updateWhere s.doctor_profiles (fun d => d.profile_id == profileId)
      (fun d => { d with approval_status := "approved" })
    let s1 := { s with doctor_profiles := rows1 }
    if f.secondFails then (s1, .err 500 "Doctor approved but profile update failed")
    else
      let rows2 := updateWhere s1.profiles (fun p => p.id == profileId)
        (fun p => { p with approval_status := "approved" })
      let s2 := { s1 with profiles := rows2 }
      (s2, .success)

/-- POST /hospital-admin/doctors/:profileId/reject. -/
def rejectDoctor (s : Store) (profileId : Nat) (f : WriteFaults) : Store × ApiResp :=
  if f.firstFails then (s, .err 500 "Failed to update doctor profile")
  else
    let rows1 := updateWhere s.doctor_profiles (fun d => d.profile_id == profileId)
      (fun d => { d with approval_status := "rejected" })
    let s1 := { s with doctor_profiles := rows1 }
    if f.secondFails then (s1, .err 500 "Doctor rejected but profile update failed")
    else
      let rows2 := updateWhere s1.profiles (fun p => p.id == profileId)
        (fun p => { p with approval_status := "rejected" })
      let s2 := { s1 with profiles := rows2 }
      (s2, .success)

/-- POST /hospital-admin/assistants/:profileId/approve. Updates
`doctor_assistant_profiles` (unscoped, by `profile_id`), then `profiles`. -/
def approveAssistant (s : Store) (profileId : Nat) (f : WriteFaults) : Store × ApiResp :=
  if f.firstFails then (s, .err 500 "Failed to update assistant link")
  else
    let rows1 := updateWhere s.doctor_assistant_profiles (fun a => a.profile_id == profileId)
      (fun a => { a with approval_status := "approved" })
    let s1 := { s with doctor_assistant_profiles := rows1 }
    if f.secondFails then (s1, .err 500 "Assistant approved but profile update failed")
    else
      let rows2 := updateWhere s1.profiles (fun p => p.id == profileId)
        (fun p => { p with approval_status := "approved" })
      let s2 := { s1 with profiles := rows2 }
      (s2, .success)

/-- POST /hospital-admin/assistants/:profileId/reject. -/
def rejectAssistant (s : Store) (profileId : Nat) (f : WriteFaults) : Store × ApiResp :=
  if f.firstFails then (s, .err 500 "Failed to update assistant link")
  else
    let rows1 := updateWhere s.doctor_assistant_profiles (fun a => a.profile_id == profileId)
      (fun a => { a with approval_status := "rejected" })
    let s1 := { s with doctor_assistant_profiles := rows1 }
    if f.secondFails then (s1, .err 500 "Assistant rejected but profile update failed")
    else
      let rows2 := updateWhere s1.profiles (fun p => p.id == profileId)
        (fun p => { p with approval_status := "rejected" })
      let s2 := { s1 with profiles := rows2 }
      (s2, .success)

/-- POST /superadmin/hospital-admins/:profileId/approve: updates the profile
only; `hospitals.status` is deliberately left alone. -/
def approveHospitalAdmin (s : Store) (profileId : Nat) (fail1 : Bool) : Store × ApiResp :=
  if fail1 then (s, .err 500 "Failed to update profile")
  else
    let rows := updateWhere s.profiles (fun p => p.id == profileId)
      (fun p => { p with approval_status := "approved" })
    ({ s with profiles := rows }, .success)

/-- POST /superadmin/hospital-admins/:profileId/reject: rejects the profile,
then rejects every hospital whose `admin_profile_id` is this profile. -/
def rejectHospitalAdmin (s : Store) (profileId : Nat) (f : WriteFaults) : Store × ApiResp :=
  if f.firstFails then (s, .err 500 "Failed to update profile")
  else
    let rows1 := updateWhere s.profiles (fun p => p.id == profileId)
      (fun p => { p with approval_status := "rejected" })
    let s1 := { s with profiles := rows1 }
    if f.secondFails then (s1, .err 500 "Profile rejected but hospital update failed")
    else
      let rows2 := updateWhere s1.hospitals (fun h => h.admin_profile_id == some profileId)
        (fun h => { h with status := "rejected" })
      let s2 := { s1 with hospitals := rows2 }
      (s2, .success)

/-- The authenticated account as the identity provider returns it:
`user.id`, `user.email` and the `user_metadata` fields the handlers read. -/
structure AuthUser where
  id : Nat
  email : String
  meta_role : Option String
  meta_full_name : Option String
  meta_phone : Option String
  meta_gender : Option String
  meta_dob : Option String
deriving Repr, DecidableEq

/-- Outcome of GET /profile/me: `{user, profile}` or an error. -/
inductive MeResp where
  | ok (profile : Profile)
  | err (code : Nat) (msg : String)
deriving Repr, DecidableEq

/-- GET /profile/me: return the existing profile, or auto-provision one with
`role = user_metadata.role || "doctor"` and `approval_status = "pending"`. -/
def getProfileMe (s : Store) (u : AuthUser) (createFails : Bool) : Store × MeResp :=
  match single? (s.profiles.filter (fun p => p.id == u.id)) with
  | some p => (s, .ok p)
  | none =>
    let inferredRole := match u.meta_role with
      | some r => if r == "" then "doctor" else r
      | none => "doctor"
    if createFails then (s, .err 500 "Failed to create profile")
    else
      let fullName := match u.meta_full_name with
        | some n => if n == "" then u.email else n
        | none => u.email
      let newProfile : Profile :=
        { id := u.id, full_name := some fullName, phone := orNull u.meta_phone,
          gender := orNull u.meta_gender, dob := orNull u.meta_dob,
          role := inferredRole, approval_status := "pending" }
      ({ s with profiles := s.profiles ++ [newProfile] }, .ok newProfile)

/-- The JSON `patient` object POST /patients returns. -/
structure PatientOut where
  id : Nat
  full_name : String
  phone : Option String
  gender : Option String
  dob : Option String
  cnic : String
  created_at : Nat
deriving Repr, DecidableEq

/-- Outcome of POST /patients: `{status, patient}` with an HTTP code, or an
error with an HTTP code. -/
inductive PatientResp where
  | ok (code : Nat) (status : String) (patient : PatientOut)
  | err (code : Nat) (msg : String)
deriving Repr, DecidableEq

/-- Fault injection for the fallible store operations inside POST /patients,
in the order the handler performs them. A failed operation writes nothing;
a failed demographic update is logged and ignored by the handler. -/
structure PatientFaults where
  checkExistingFails : Bool
  loadProfileFails : Bool
  demoUpdateFails : Bool
  relinkFails : Bool
  createProfileFails : Bool
  createLinkFails : Bool
deriving Repr, DecidableEq

/-- All store operations succeed. -/
def noFaults : PatientFaults :=
  { checkExistingFails := false, loadProfileFails := false, demoUpdateFails := false,
    relinkFails := false, createProfileFails := false, createLinkFails := false }

/-- The `updatePayload` of POST /patients: which demographic fields the
handler decides to patch onto the canonical profile. -/
structure DemoPatch where
  full_name : Option String
  phone : Option String
  gender : Option String
  dob : Option String
deriving Repr, DecidableEq

/-- `Object.keys(updatePayload).length > 0`. -/
def DemoPatch.nonEmpty (d : DemoPatch) : Bool :=
  d.full_name.isSome || d.phone.isSome || d.gender.isSome || d.dob.isSome

/-- Apply the patch to a profile row (the `update(updatePayload)`). -/
def applyPatch (d : DemoPatch) (p : Profile) : Profile :=
  { p with
    full_name := match d.full_name with | some v => some v | none => p.full_name,
    phone := match d.phone with | some v => some v | none => p.phone,
    gender := match d.gender with | some v => some v | none => p.gender,
    dob := match d.dob with | some v => some v | none => p.dob }

/-- POST /patients (assistant-scoped): validate `{fullName, cnic}`, resolve
the caller's hospital, then reconcile by cnic — create, no-op
(`already_exists`) or relink (`linked`) — with the name-mismatch safety
check. `aid` is the authenticated assistant's profile id, `now` the
database timestamp a newly inserted `patient_profiles` row receives. -/
def postPatients (s : Store) (aid : Nat)
    (fullName cnic phone gender dob : Option String)
    (now : Nat) (f : PatientFaults) : Store × PatientResp :=
  if ¬ (truthy fullName && truthy cnic) then
    (s, .err 400 "fullName and cnic are required fields")
  else
    let fN := fullName.getD ""
    let cn := cnic.getD ""
    match single? (s.doctor_assistant_profiles.filter (fun l => l.profile_id == aid)) with
    | none =>
      (s, .err 400 "Assistant is not properly linked to a hospital. Please contact admin.")
    | some link =>
      match link.hospital_id with
      | none =>
        (s, .err 400 "Assistant is not properly linked to a hospital. Please contact admin.")
      | some hospitalId =>
        if f.checkExistingFails then (s, .err 500 "Failed to check existing patients")
        else
          match s.patient_profiles.filter (fun p => p.cnic == cn) with
          | e0 :: rest =>
            let existing := e0 :: rest
            let existingProfileId := e0.profile_id
            if f.loadProfileFails then
              (s, .err 500 "Failed to load existing patient information")
            else
              match single? (s.profiles.filter (fun p => p.id == existingProfileId)) with
              | none => (s, .err 500 "Failed to load existing patient information")
              | some prof =>
                if truthy prof.full_name &&
                    !(normalize (prof.full_name.getD "") == normalize fN) then
                  (s, .err 400 "A patient with this CNIC already exists, but the name does not match. Please verify the CNIC with the patient or contact admin.")
                else
                  let alreadyInThisHospital :=
                    existing.find? (fun p => p.hospital_id == some hospitalId)
                  let patch : DemoPatch :=
                    { full_name :=
                        if !(truthy prof.full_name) ||
                            !(normalize (prof.full_name.getD "") == normalize fN)
                        then some fN else none,
                      phone :=
                        if truthy phone && !(phone == prof.phone) then phone else none,
                      gender :=
                        if truthy gender && !(gender == prof.gender) then gender else none,
                      dob :=
                        if truthy dob && !(dob == prof.dob) then dob else none }
                  let s1 :=
                    if patch.nonEmpty then
                      if f.demoUpdateFails then s
                      else
                        let rows := updateWhere s.profiles
                          (fun p => p.id == existingProfileId) (applyPatch patch)
                        { s with profiles := rows }
                    else s
                  match alreadyInThisHospital with
                  | some row =>
                    (s1, .ok 200 "already_exists"
                      { id := existingProfileId, full_name := fN,
                        phone := nullish phone prof.phone,
                        gender := nullish gender prof.gender,
                        dob := nullish dob prof.dob,
                        cnic := cn, created_at := row.created_at })
                  | none =>
                    let targetRow := e0
                    if f.relinkFails then
                      (s1, .err 500 "Existing patient found, but failed to link to this hospital. Please try again.")
                    else
                      let rows := updateWhere s1.patient_profiles
                        (fun p => p.profile_id == targetRow.profile_id && p.cnic == cn)
                        (fun p => { p with hospital_id := some hospitalId, created_by := aid })
                      let s2 := { s1 with patient_profiles := rows }
                      (s2, .ok 200 "linked"
                        { id := existingProfileId, full_name := fN,
                          phone := nullish phone prof.phone,
                          gender := nullish gender prof.gender,
                          dob := nullish dob prof.dob,
                          cnic := cn, created_at := targetRow.created_at })
          | [] =>
            if f.createProfileFails then
              (s, .err 500 "Failed to create new patient profile")
            else
              let newId := s.nextId
              let newProfile : Profile :=
                { id := newId, full_name := some fN, phone := phone, gender := gender,
                  dob := dob, role := "patient", approval_status := "approved" }
              let s1 := { s with profiles := s.profiles ++ [newProfile], nextId := s.nextId + 1 }
              if f.createLinkFails then
                (s1, .err 500 "Patient profile created, but failed to link it to this hospital.")
              else
                let newRow : PatientProfileRow :=
                  { profile_id := newId, hospital_id := some hospitalId, cnic := cn,
                    created_by := aid, created_at := now }
                let s2 := { s1 with patient_profiles := s1.patient_profiles ++ [newRow] }
                (s2, .ok 201 "created"
                  { id := newId, full_name := fN, phone := phone, gender := gender,
                    dob := dob, cnic := cn, created_at := now })

/-! Concrete fixture data used to instantiate the theorems below. -/

/-- Assistant 1, linked to hospital 10. -/
def asst1 : AssistantLinkRow :=
  { profile_id := 1, doctor_profile_id := 30, hospital_id := some 10,
    approval_status := "approved" }

/-- Assistant 3, linked to hospital 11. -/
def asst3 : AssistantLinkRow :=
  { profile_id := 3, doctor_profile_id := 30, hospital_id := some 11,
    approval_status := "approved" }

/-- The registered patient row: cnic "12345-1234567-1" at hospital 10. -/
def aliRow : PatientProfileRow :=
  { profile_id := 100, hospital_id := some 10, cnic := "12345-1234567-1",
    created_by := 1, created_at := 55 }

/-- The canonical profile behind `aliRow`. -/
def aliProfile : Profile :=
  { id := 100, full_name := some "Ali Khan", phone := none, gender := none,
    dob := none, role := "patient", approval_status := "approved" }

/-- A populated store: two hospitals (10 owned by admin 20, 11 owned by
admin 21), two linked assistants, a pending doctor 30 at hospital 11, and
one registered patient. -/
def demoStore : Store :=
  { profiles :=
      [{ id := 1, full_name := some "Asst One", phone := none, gender := none,
         dob := none, role := "doctor_assistant", approval_status := "approved" },
       { id := 3, full_name := some "Asst Two", phone := none, gender := none,
         dob := none, role := "doctor_assistant", approval_status := "approved" },
       { id := 20, full_name := some "Admin A", phone := none, gender := none,
         dob := none, role := "hospital_admin", approval_status := "approved" },
       { id := 21, full_name := some "Admin B", phone := none, gender := none,
         dob := none, role := "hospital_admin", approval_status := "approved" },
       { id := 30, full_name := some "Doc C", phone := none, gender := none,
         dob := none, role := "doctor", approval_status := "pending" },
       aliProfile],
    hospitals :=
      [{ id := 10, name := "General", address := "A St", hospital_type := "public",
         admin_profile_id := some 20, status := "approved" },
       { id := 11, name := "City", address := "B St", hospital_type := "private",
         admin_profile_id := some 21, status := "pending" }],
    doctor_profiles :=
      [{ profile_id := 30, specialization := "cardiology", hospital_id := some 11,
         license_number := "L-1", cnic := "30303-3030303-3",
         approval_status := "pending" }],
    doctor_assistant_profiles := [asst1, asst3],
    patient_profiles := [aliRow],
    nextId := 200 }

/-- The authenticated account used to exercise auto-provisioning: no
`profiles` row, no role in its metadata. -/
def freshUser : AuthUser :=
  { id := 7, email := "fresh@example.com", meta_role := none,
    meta_full_name := none, meta_phone := none, meta_gender := none,
    meta_dob := none }

/-- Both coupled writes succeed. -/
def okW : WriteFaults := { firstFails := false, secondFails := false }

/-- The first coupled write fails. -/
def fstFail : WriteFaults := { firstFails := true, secondFails := false }

/-- The first write succeeds, the second fails. -/
def sndFail : WriteFaults := { firstFails := false, secondFails := true }

/-- A pending doctor profile row. -/
def wDoctor : Profile :=
  { id := 500, full_name := some "W Doc", phone := none, gender := none,
    dob := none, role := "doctor", approval_status := "pending" }

/-- A rejected assistant profile row. -/
def wAssistant : Profile :=
  { id := 501, full_name := some "W Asst", phone := none, gender := none,
    dob := none, role := "doctor_assistant", approval_status := "rejected" }

/-- A pending hospital-admin profile row. -/
def wAdmin : Profile :=
  { id := 502, full_name := some "W Adm", phone := none, gender := none,
    dob := none, role := "hospital_admin", approval_status := "pending" }

/-! Helper lemmas about the store combinators. -/

/-- Rows an update does not touch pass through `updateWhere` unchanged:
filtering for non-matching rows commutes with the update, provided the
update never changes whether a row matches. -/
theorem updateWhere_filter_not {α : Type} (l : List α) (p : α → Bool) (f : α → α)
    (hpf : ∀ x, p (f x) = p x) :
    (updateWhere l p f).filter (fun x => !(p x)) = l.filter (fun x => !(p x)) := by
  induction l with
  | nil => rfl
  | cons a t ih =>
    by_cases h : p a = true <;>
      simp [updateWhere, List.filter_cons, hpf, h] at ih ⊢ <;>
      simpa [updateWhere] using ih

/-- Every row of an `updateWhere` result satisfies `q` when updated matching
rows do and untouched rows already do. -/
theorem all_updateWhere {α : Type} (l : List α) (p q : α → Bool) (f : α → α)
    (h1 : ∀ x, p x = true → q (f x) = true)
    (h2 : ∀ x, p x = false → q x = true) :
    (updateWhere l p f).all q = true := by
  simp only [updateWhere, List.all_eq_true, List.mem_map]
  rintro x ⟨a, ha, rfl⟩
  by_cases h : p a = true
  · simpa [h] using h1 a h
  · simpa [h] using h2 a (by simpa using h)

/-- C5: the hospital-admin-scoped doctor-approve handler is supposed to
restrict the mutation to hospitals the calling admin owns. In the code it
does not: in `demoStore` admin 20 owns only hospital 10, doctor 30 practices
at hospital 11, yet the doctor-approve handler (which never consults the
caller) succeeds and flips both the doctor row and the profile to approved. -/
theorem C5_unscoped_doctor_approve_mutates :
    ((demoStore.hospitals.filter (fun h => h.admin_profile_id == some 20)).map
        Hospital.id = [10]) ∧
    (demoStore.doctor_profiles.map
        (fun d => (d.profile_id, d.hospital_id, d.approval_status)) =
      [(30, some 11, "pending")]) ∧
    (approveDoctor demoStore 30 okW).2 = .success ∧
    ((approveDoctor demoStore 30 okW).1.doctor_profiles.map
        (fun d => (d.profile_id, d.approval_status)) = [(30, "approved")]) ∧
    (((approveDoctor demoStore 30 okW).1.profiles.filter
        (fun p => p.id == 30)).map Profile.approval_status = ["approved"]) :=
  ⟨rfl, rfl, rfl, rfl, rfl⟩

/-- C6 counterexample: for an authenticated account with no profile and no
role in its metadata, GET /profile/me auto-provisions a profile whose role
is "doctor", not "patient" as claimed. -/
theorem C6_default_role_counterexample :
    (getProfileMe demoStore freshUser false).2 =
      .ok { id := 7, full_name := some "fresh@example.com", phone := none,
            gender := none, dob := none, role := "doctor",
            approval_status := "pending" } ∧
    ("doctor" : String) ≠ "patient" :=
  ⟨rfl, by decide⟩

/-- C6 (amended): when an authenticated user with no existing Profile calls
GET /profile/me, a Profile is auto-provisioned with role inferred from the
account's metadata; when the metadata carries no role (or an empty one) the
created Profile's role defaults to "doctor". -/
theorem C6_auto_provision_role (s : Store) (u : AuthUser)
    (hnone : single? (s.profiles.filter (fun p => p.id == u.id)) = none) :
    ∃ np : Profile,
      (getProfileMe s u false).1.profiles = s.profiles ++ [np] ∧
      (getProfileMe s u false).2 = .ok np ∧
      np.id = u.id ∧ np.approval_status = "pending" ∧
      (u.meta_role = none → np.role = "doctor") ∧
      (u.meta_role = some "" → np.role = "doctor") ∧
      (∀ r, u.meta_role = some r → r ≠ "" → np.role = r) := by
  unfold getProfileMe
  rw [hnone]
  refine ⟨_, rfl, rfl, rfl, rfl, ?_, ?_, ?_⟩
  · intro h; simp [h]
  · intro h; simp [h]
  · intro r h hr; simp [h, hr]

/-- C6 witness: the amended statement at the concrete fresh user. -/
theorem C6_auto_provision_role_witness :
    ∃ np : Profile,
      (getProfileMe demoStore freshUser false).1.profiles =
        demoStore.profiles ++ [np] ∧
      (getProfileMe demoStore freshUser false).2 = .ok np ∧
      np.id = freshUser.id ∧ np.approval_status = "pending" ∧
      (freshUser.meta_role = none → np.role = "doctor") ∧
      (freshUser.meta_role = some "" → np.role = "doctor") ∧
      (∀ r, freshUser.meta_role = some r → r ≠ "" → np.role = r) :=
  C6_auto_provision_role demoStore freshUser rfl

/-- C7: every coupled approve/reject (doctor, assistant) writes the
role-specific table first and `profiles` second; when the second write fails
the handler reports a distinct "partially applied" message, the generic
profile table is untouched, the role-specific table holds exactly what the
fully successful run produces (no rollback); when the first write fails the
store is unchanged and the message is the generic one. -/
theorem C7_partial_failure_contract (s : Store) (pid : Nat) :
    ((approveDoctor s pid sndFail).2 =
        .err 500 "Doctor approved but profile update failed" ∧
      (approveDoctor s pid sndFail).1.profiles = s.profiles ∧
      (approveDoctor s pid sndFail).1.doctor_profiles =
        (approveDoctor s pid okW).1.doctor_profiles ∧
      (approveDoctor s pid fstFail).2 = .err 500 "Failed to update doctor profile" ∧
      (approveDoctor s pid fstFail).1 = s) ∧
    ((rejectDoctor s pid sndFail).2 =
        .err 500 "Doctor rejected but profile update failed" ∧
      (rejectDoctor s pid sndFail).1.profiles = s.profiles ∧
      (rejectDoctor s pid sndFail).1.doctor_profiles =
        (rejectDoctor s pid okW).1.doctor_profiles ∧
      (rejectDoctor s pid fstFail).2 = .err 500 "Failed to update doctor profile" ∧
      (rejectDoctor s pid fstFail).1 = s) ∧
    ((approveAssistant s pid sndFail).2 =
        .err 500 "Assistant approved but profile update failed" ∧
      (approveAssistant s pid sndFail).1.profiles = s.profiles ∧
      (approveAssistant s pid sndFail).1.doctor_assistant_profiles =
        (approveAssistant s pid okW).1.doctor_assistant_profiles ∧
      (approveAssistant s pid fstFail).2 = .err 500 "Failed to update assistant link" ∧
      (approveAssistant s pid fstFail).1 = s) ∧
    ((rejectAssistant s pid sndFail).2 =
        .err 500 "Assistant rejected but profile update failed" ∧
      (rejectAssistant s pid sndFail).1.profiles = s.profiles ∧
      (rejectAssistant s pid sndFail).1.doctor_assistant_profiles =
        (rejectAssistant s pid okW).1.doctor_assistant_profiles ∧
      (rejectAssistant s pid fstFail).2 = .err 500 "Failed to update assistant link" ∧
      (rejectAssistant s pid fstFail).1 = s) ∧
    (("Doctor approved but profile update failed" : String) ≠
        "Failed to update doctor profile" ∧
      ("Doctor rejected but profile update failed" : String) ≠
        "Failed to update doctor profile" ∧
      ("Assistant approved but profile update failed" : String) ≠
        "Failed to update assistant link" ∧
      ("Assistant rejected but profile update failed" : String) ≠
        "Failed to update assistant link") :=
  ⟨⟨rfl, rfl, rfl, rfl, rfl⟩, ⟨rfl, rfl, rfl, rfl, rfl⟩,
   ⟨rfl, rfl, rfl, rfl, rfl⟩, ⟨rfl, rfl, rfl, rfl, rfl⟩,
   by decide, by decide, by decide, by decide⟩

/-- C8: a successful reject of a hospital-admin profile leaves every profile
row with that id rejected and every hospital row owned by that admin
rejected. -/
theorem C8_reject_admin_cascade (s : Store) (pid : Nat) :
    (rejectHospitalAdmin s pid okW).2 = .success ∧
    ((rejectHospitalAdmin s pid okW).1.profiles.all
      (fun p => !(p.id == pid) || (p.approval_status == "rejected"))) = true ∧
    ((rejectHospitalAdmin s pid okW).1.hospitals.all
      (fun h => !(h.admin_profile_id == some pid) || (h.status == "rejected"))) = true := by
  refine ⟨rfl, ?_, ?_⟩
  · exact all_updateWhere s.profiles _ _ _
      (fun x hx => by simp_all) (fun x hx => by simp_all)
  · exact all_updateWhere s.hospitals _ _ _
      (fun x hx => by simp_all) (fun x hx => by simp_all)

/-- C9: approving a hospital-admin profile touches only `profiles`: every
other table — in particular `hospitals` — is returned unchanged, rows with
the given id become approved, and all other profile rows are unchanged. -/
theorem C9_approve_admin_hospitals_frame (s : Store) (pid : Nat) :
    (approveHospitalAdmin s pid false).2 = .success ∧
    (approveHospitalAdmin s pid false).1.hospitals = s.hospitals ∧
    (approveHospitalAdmin s pid false).1.doctor_profiles = s.doctor_profiles ∧
    (approveHospitalAdmin s pid false).1.doctor_assistant_profiles =
      s.doctor_assistant_profiles ∧
    (approveHospitalAdmin s pid false).1.patient_profiles = s.patient_profiles ∧
    ((approveHospitalAdmin s pid false).1.profiles.all
      (fun p => !(p.id == pid) || (p.approval_status == "approved"))) = true ∧
    ((approveHospitalAdmin s pid false).1.profiles.filter (fun p => !(p.id == pid)) =
      s.profiles.filter (fun p => !(p.id == pid))) := by
  refine ⟨rfl, rfl, rfl, rfl, rfl, ?_, ?_⟩
  · exact all_updateWhere s.profiles _ _ _
      (fun x hx => by simp_all) (fun x hx => by simp_all)
  · exact updateWhere_filter_not s.profiles _ _ (fun x => rfl)

/-- C10: approval gating is asymmetric at the router gates: the doctor and
assistant routers check role only, so a pending or rejected doctor or
assistant passes, while the hospital-admin router additionally requires an
approved profile and turns everyone else away. -/
theorem C10_approval_gating_asymmetry (p q r : Profile)
    (hp : p.role = "doctor") (hq : q.role = "doctor_assistant")
    (hr : r.role = "hospital_admin") (hra : r.approval_status ≠ "approved") :
    doctorRouterGate (some p) = true ∧
    assistantRouterGate (some q) = true ∧
    hospitalAdminRouterGate (some r) = false := by
  refine ⟨?_, ?_, ?_⟩ <;>
    simp [doctorRouterGate, assistantRouterGate, hospitalAdminRouterGate,
      requireRole, requireApprovedRole, hp, hq, hr, hra]

/-- C10 witness: a pending doctor and a rejected assistant pass their
routers' gates while a pending hospital admin is turned away. -/
theorem C10_approval_gating_asymmetry_witness :
    doctorRouterGate (some wDoctor) = true ∧
    assistantRouterGate (some wAssistant) = true ∧
    hospitalAdminRouterGate (some wAdmin) = false :=
  C10_approval_gating_asymmetry wDoctor wAssistant wAdmin rfl rfl rfl (by decide)

/-- C1: whenever some patient row matches the submitted cnic and the
canonical profile (of the first matching row) carries a non-empty full name
whose normalized form differs from the normalized submitted name, POST
/patients answers 400 with the name-mismatch error and the store is
returned exactly as it was: nothing created, updated or relinked. -/
theorem C1_name_mismatch (s : Store) (aid hid : Nat) (link : AssistantLinkRow)
    (fN cn : String) (phone gender dob : Option String) (now : Nat)
    (e0 : PatientProfileRow) (rest : List PatientProfileRow) (prof : Profile)
    (hfn : fN ≠ "") (hcn : cn ≠ "")
    (hlink : single? (s.doctor_assistant_profiles.filter
      (fun l => l.profile_id == aid)) = some link)
    (hhosp : link.hospital_id = some hid)
    (hex : s.patient_profiles.filter (fun p => p.cnic == cn) = e0 :: rest)
    (hprof : single? (s.profiles.filter (fun p => p.id == e0.profile_id)) = some prof)
    (hname : truthy prof.full_name = true)
    (hdiff : normalize (prof.full_name.getD "") ≠ normalize fN) :
    postPatients s aid (some fN) (some cn) phone gender dob now noFaults =
      (s, .err 400 "A patient with this CNIC already exists, but the name does not match. Please verify the CNIC with the patient or contact admin.") := by
  have h1 : truthy (some fN) = true := by simp [truthy, hfn]
  have h2 : truthy (some cn) = true := by simp [truthy, hcn]
  have h3 : (normalize (prof.full_name.getD "") == normalize fN) = false := by
    simpa using hdiff
  simp only [postPatients, h1, h2, Bool.and_self, not_true, if_false,
    Option.getD_some, hlink, hhosp, noFaults, Bool.false_eq_true, hex, hprof,
    hname, h3, Bool.not_false, Bool.and_true, if_true, ite_false, ite_true]

/-- C1 witness: submitting "Sara Ahmed" against the cnic registered to
"Ali Khan" yields the 400 mismatch and leaves `demoStore` untouched. -/
theorem C1_name_mismatch_witness :
    postPatients demoStore 1 (some "Sara Ahmed") (some "12345-1234567-1")
      none none none 77 noFaults =
      (demoStore, .err 400 "A patient with this CNIC already exists, but the name does not match. Please verify the CNIC with the patient or contact admin.") :=
  C1_name_mismatch demoStore 1 10 asst1 "Sara Ahmed" "12345-1234567-1"
    none none none 77 aliRow [] aliProfile (by decide) (by decide)
    rfl rfl rfl rfl rfl (by decide)

/-- Shared evaluation of the create branch of POST /patients: when no
patient row matches the cnic, the handler appends one approved patient
profile and one patient row for the caller's hospital and answers 201. -/
theorem postPatients_create_eval (s : Store) (aid hid : Nat)
    (link : AssistantLinkRow) (fN cn : String)
    (phone gender dob : Option String) (now : Nat)
    (hfn : fN ≠ "") (hcn : cn ≠ "")
    (hlink : single? (s.doctor_assistant_profiles.filter
      (fun l => l.profile_id == aid)) = some link)
    (hhosp : link.hospital_id = some hid)
    (hxnone : s.patient_profiles.filter (fun p => p.cnic == cn) = []) :
    postPatients s aid (some fN) (some cn) phone gender dob now noFaults =
      ({ s with
          profiles := s.profiles ++
            [{ id := s.nextId, full_name := some fN, phone := phone,
               gender := gender, dob := dob, role := "patient",
               approval_status := "approved" }],
          patient_profiles := s.patient_profiles ++
            [{ profile_id := s.nextId, hospital_id := some hid, cnic := cn,
               created_by := aid, created_at := now }],
          nextId := s.nextId + 1 },
       .ok 201 "created"
         { id := s.nextId, full_name := fN, phone := phone, gender := gender,
           dob := dob, cnic := cn, created_at := now }) := by
  have h1 : truthy (some fN) = true := by simp [truthy, hfn]
  have h2 : truthy (some cn) = true := by simp [truthy, hcn]
  simp only [postPatients, h1, h2, Bool.and_self, not_true, if_false,
    Option.getD_some, hlink, hhosp, noFaults, Bool.false_eq_true, hxnone,
    ite_false, ite_true]

/-- C4: with no patient row matching the cnic, POST /patients creates
exactly one new Profile (role patient, approved immediately) and exactly one
new PatientProfile row carrying the submitted cnic, the caller's hospital
and the caller as creator, and answers 201 created. -/
theorem C4_create_branch (s : Store) (aid hid : Nat)
    (link : AssistantLinkRow) (fN cn : String)
    (phone gender dob : Option String) (now : Nat)
    (hfn : fN ≠ "") (hcn : cn ≠ "")
    (hlink : single? (s.doctor_assistant_profiles.filter
      (fun l => l.profile_id == aid)) = some link)
    (hhosp : link.hospital_id = some hid)
    (hxnone : s.patient_profiles.filter (fun p => p.cnic == cn) = []) :
    postPatients s aid (some fN) (some cn) phone gender dob now noFaults =
      ({ s with
          profiles := s.profiles ++
            [{ id := s.nextId, full_name := some fN, phone := phone,
               gender := gender, dob := dob, role := "patient",
               approval_status := "approved" }],
          patient_profiles := s.patient_profiles ++
            [{ profile_id := s.nextId, hospital_id := some hid, cnic := cn,
               created_by := aid, created_at := now }],
          nextId := s.nextId + 1 },
       .ok 201 "created"
         { id := s.nextId, full_name := fN, phone := phone, gender := gender,
           dob := dob, cnic := cn, created_at := now }) :=
  postPatients_create_eval s aid hid link fN cn phone gender dob now
    hfn hcn hlink hhosp hxnone

/-- C4 witness: registering a brand-new cnic "88888-8888888-8" in
`demoStore` appends one approved patient profile (id 200) and one patient
row at hospital 10 and answers 201 created. -/
theorem C4_create_branch_witness :
    postPatients demoStore 1 (some "John Doe") (some "88888-8888888-8")
      none none none 90 noFaults =
      ({ demoStore with
          profiles := demoStore.profiles ++
            [{ id := 200, full_name := some "John Doe", phone := none,
               gender := none, dob := none, role := "patient",
               approval_status := "approved" }],
          patient_profiles := demoStore.patient_profiles ++
            [{ profile_id := 200, hospital_id := some 10,
               cnic := "88888-8888888-8", created_by := 1, created_at := 90 }],
          nextId := 201 },
       .ok 201 "created"
         { id := 200, full_name := "John Doe", phone := none, gender := none,
           dob := none, cnic := "88888-8888888-8", created_at := 90 }) :=
  C4_create_branch demoStore 1 10 asst1 "John Doe" "88888-8888888-8"
    none none none 90 (by decide) (by decide) rfl rfl rfl

/-- `updateWhere` never changes the number of rows. -/
theorem updateWhere_length {α : Type} (l : List α) (p : α → Bool) (f : α → α) :
    (updateWhere l p f).length = l.length := by
  simp [updateWhere]

/-- A matching row appears updated in the result of `updateWhere`. -/
theorem updateWhere_mem {α : Type} {l : List α} {x : α} (p : α → Bool) (f : α → α)
    (hx : x ∈ l) (hp : p x = true) : f x ∈ updateWhere l p f := by
  have h := List.mem_map_of_mem (fun y => if p y then f y else y) hx
  simpa [updateWhere, hp] using h

/-- C3: when patient rows exist for the cnic, the name check passes and none
of the rows is at the caller's hospital, POST /patients answers 200 linked
with the first matching row's patient id and original creation timestamp,
re-homes that row (hospital_id and created_by now the caller's) keeping its
created_at, and adds no new patient row. -/
theorem C3_relink (s : Store) (aid hid : Nat) (link : AssistantLinkRow)
    (fN cn : String) (phone gender dob : Option String) (now : Nat)
    (e0 : PatientProfileRow) (rest : List PatientProfileRow) (prof : Profile)
    (hfn : fN ≠ "") (hcn : cn ≠ "")
    (hlink : single? (s.doctor_assistant_profiles.filter
      (fun l => l.profile_id == aid)) = some link)
    (hhosp : link.hospital_id = some hid)
    (hex : s.patient_profiles.filter (fun p => p.cnic == cn) = e0 :: rest)
    (hprof : single? (s.profiles.filter (fun p => p.id == e0.profile_id)) = some prof)
    (hnomis : (truthy prof.full_name &&
      !(normalize (prof.full_name.getD "") == normalize fN)) = false)
    (hnone : (e0 :: rest).find? (fun p => p.hospital_id == some hid) = none) :
    (postPatients s aid (some fN) (some cn) phone gender dob now noFaults).2 =
      .ok 200 "linked"
        { id := e0.profile_id, full_name := fN, phone := nullish phone prof.phone,
          gender := nullish gender prof.gender, dob := nullish dob prof.dob,
          cnic := cn, created_at := e0.created_at } ∧
    (postPatients s aid (some fN) (some cn) phone gender dob
        now noFaults).1.patient_profiles.length = s.patient_profiles.length ∧
    ({ e0 with hospital_id := some hid, created_by := aid } : PatientProfileRow) ∈
      (postPatients s aid (some fN) (some cn) phone gender dob
        now noFaults).1.patient_profiles := by
  have h1 : truthy (some fN) = true := by simp [truthy, hfn]
  have h2 : truthy (some cn) = true := by simp [truthy, hcn]
  have he0 : e0 ∈ s.patient_profiles.filter (fun p => p.cnic == cn) := by
    rw [hex]; exact List.mem_cons_self _ _
  have he0' := List.mem_filter.mp he0
  simp only [postPatients, h1, h2, Bool.and_self, not_true, if_false,
    Option.getD_some, hlink, hhosp, noFaults, Bool.false_eq_true, hex, hprof,
    hnomis, hnone, ite_false, ite_true]
  refine ⟨trivial, ?_, ?_⟩
  · rw [apply_ite Store.patient_profiles]
    simp [updateWhere_length]
  · rw [apply_ite Store.patient_profiles]
    simp only [ite_self]
    exact updateWhere_mem _ _ he0'.1 (by simp [he0'.2])

/-- C3 witness: assistant 3 (hospital 11) submits the cnic registered at
hospital 10: the answer is 200 linked with the original patient id 100 and
created_at 55, the row count is unchanged and the row is re-homed to
hospital 11 with created_by 3. -/
theorem C3_relink_witness :
    (postPatients demoStore 3 (some "Ali Khan") (some "12345-1234567-1")
      none none none 88 noFaults).2 =
      .ok 200 "linked"
        { id := 100, full_name := "Ali Khan", phone := none, gender := none,
          dob := none, cnic := "12345-1234567-1", created_at := 55 } ∧
    (postPatients demoStore 3 (some "Ali Khan") (some "12345-1234567-1")
      none none none 88 noFaults).1.patient_profiles.length =
      demoStore.patient_profiles.length ∧
    ({ profile_id := 100, hospital_id := some 11, cnic := "12345-1234567-1",
       created_by := 3, created_at := 55 } : PatientProfileRow) ∈
      (postPatients demoStore 3 (some "Ali Khan") (some "12345-1234567-1")
        none none none 88 noFaults).1.patient_profiles :=
  C3_relink demoStore 3 11 asst3 "Ali Khan" "12345-1234567-1" none none none 88
    aliRow [] aliProfile (by decide) (by decide) rfl rfl rfl rfl (by decide) rfl

/-- `a ?? a` is `a`. -/
theorem nullish_self (a : Option String) : nullish a a = a := by
  cases a <;> rfl

/-- Shared evaluation of the no-op branch of POST /patients: when exactly
one row matches the cnic, it sits at the caller's hospital and the canonical
profile stores exactly the submitted demographics, the handler answers 200
already_exists and leaves the store untouched. -/
theorem postPatients_already_eval (s : Store) (aid hid : Nat)
    (link : AssistantLinkRow) (fN cn : String)
    (phone gender dob : Option String) (now : Nat)
    (e0 : PatientProfileRow) (prof : Profile)
    (hfn : fN ≠ "") (hcn : cn ≠ "")
    (hlink : single? (s.doctor_assistant_profiles.filter
      (fun l => l.profile_id == aid)) = some link)
    (hhosp : link.hospital_id = some hid)
    (hex : s.patient_profiles.filter (fun p => p.cnic == cn) = [e0])
    (hprof : single? (s.profiles.filter (fun p => p.id == e0.profile_id)) = some prof)
    (hnm : prof.full_name = some fN)
    (hph : prof.phone = phone) (hg : prof.gender = gender) (hd : prof.dob = dob)
    (hhos : e0.hospital_id = some hid) :
    postPatients s aid (some fN) (some cn) phone gender dob now noFaults =
      (s, .ok 200 "already_exists"
        { id := e0.profile_id, full_name := fN, phone := nullish phone prof.phone,
          gender := nullish gender prof.gender, dob := nullish dob prof.dob,
          cnic := cn, created_at := e0.created_at }) := by
  have h1 : truthy (some fN) = true := by simp [truthy, hfn]
  have h2 : truthy (some cn) = true := by simp [truthy, hcn]
  simp only [postPatients, h1, h2, Bool.and_self, not_true, if_false,
    Option.getD_some, hlink, hhosp, noFaults, Bool.false_eq_true, hex, hprof,
    hnm, hph, hg, hd, hhos, Option.getD_some, beq_self_eq_true, Bool.not_true,
    Bool.and_false, Bool.false_or, Bool.or_false, List.find?,
    DemoPatch.nonEmpty, Option.isSome_none, ite_false, ite_true, ite_self]

/-- C2: POST /patients is idempotent per (cnic, hospital): after a first
submission of a fresh cnic answers 201 created with patient id `s.nextId`,
repeating the identical submission (by any assistant of the same hospital)
answers 200 already_exists with the same patient id and the original
created_at, changes nothing in the store, and exactly one patient row for
that cnic and hospital exists. -/
theorem C2_idempotent (s : Store) (aid aid2 hid : Nat)
    (link link2 : AssistantLinkRow) (fN cn : String)
    (phone gender dob : Option String) (now now2 : Nat)
    (hfn : fN ≠ "") (hcn : cn ≠ "")
    (hlink : single? (s.doctor_assistant_profiles.filter
      (fun l => l.profile_id == aid)) = some link)
    (hhosp : link.hospital_id = some hid)
    (hlink2 : single? (s.doctor_assistant_profiles.filter
      (fun l => l.profile_id == aid2)) = some link2)
    (hhosp2 : link2.hospital_id = some hid)
    (hxnone : s.patient_profiles.filter (fun p => p.cnic == cn) = [])
    (hfresh : s.profiles.filter (fun p => p.id == s.nextId) = []) :
    (postPatients s aid (some fN) (some cn) phone gender dob now noFaults).2 =
      .ok 201 "created"
        { id := s.nextId, full_name := fN, phone := phone, gender := gender,
          dob := dob, cnic := cn, created_at := now } ∧
    (postPatients
        (postPatients s aid (some fN) (some cn) phone gender dob now noFaults).1
        aid2 (some fN) (some cn) phone gender dob now2 noFaults).2 =
      .ok 200 "already_exists"
        { id := s.nextId, full_name := fN, phone := phone, gender := gender,
          dob := dob, cnic := cn, created_at := now } ∧
    (postPatients
        (postPatients s aid (some fN) (some cn) phone gender dob now noFaults).1
        aid2 (some fN) (some cn) phone gender dob now2 noFaults).1 =
      (postPatients s aid (some fN) (some cn) phone gender dob now noFaults).1 ∧
    ((postPatients
        (postPatients s aid (some fN) (some cn) phone gender dob now noFaults).1
        aid2 (some fN) (some cn) phone gender dob now2 noFaults).1.patient_profiles.filter
      (fun p => p.cnic == cn && p.hospital_id == some hid)).length = 1 := by
  have hr1 := postPatients_create_eval s aid hid link fN cn phone gender dob now
    hfn hcn hlink hhosp hxnone
  rw [hr1]
  set np : Profile :=
    { id := s.nextId, full_name := some fN, phone := phone, gender := gender,
      dob := dob, role := "patient", approval_status := "approved" } with hnp
  set row : PatientProfileRow :=
    { profile_id := s.nextId, hospital_id := some hid, cnic := cn,
      created_by := aid, created_at := now } with hrow
  set S1 : Store := { s with profiles := s.profiles ++ [np], patient_profiles := s.patient_profiles ++ [row], nextId := s.nextId + 1 } with hS1
  have hcnrow : ∀ x ∈ s.patient_profiles, (x.cnic == cn) = false := by
    intro x hx
    have := List.filter_eq_nil_iff.mp hxnone x hx
    simpa using this
  have hexS1 : S1.patient_profiles.filter (fun p => p.cnic == cn) = [row] := by
    rw [hS1]
    simp [List.filter_append, hxnone, hrow]
  have hprofS1 : single? (S1.profiles.filter (fun p => p.id == row.profile_id)) = some np := by
    rw [hS1]
    simp [List.filter_append, hfresh, hrow, hnp, single?]
  have hr2 := postPatients_already_eval S1 aid2 hid link2 fN cn phone gender dob now2
    row np hfn hcn hlink2 hhosp2 hexS1 hprofS1 rfl rfl rfl rfl rfl
  rw [hr2]
  refine ⟨rfl, ?_, rfl, ?_⟩
  · simp [nullish_self, hrow, hnp]
  · rw [hS1]
    simp only [List.filter_append]
    rw [List.filter_eq_nil_iff.mpr ?bulk]
    case bulk =>
      intro x hx
      simp [hcnrow x hx]
    simp [hrow]

/-- C2 witness: registering fresh cnic "99999-9999999-9" twice in
`demoStore` (assistant 1, hospital 10) answers created then already_exists
with the same id 200 and created_at 90, leaves the second store identical
to the first, and keeps exactly one row for that cnic at hospital 10. -/
theorem C2_idempotent_witness :
    (postPatients demoStore 1 (some "Jane Roe") (some "99999-9999999-9")
      none none none 90 noFaults).2 =
      .ok 201 "created"
        { id := 200, full_name := "Jane Roe", phone := none, gender := none,
          dob := none, cnic := "99999-9999999-9", created_at := 90 } ∧
    (postPatients
        (postPatients demoStore 1 (some "Jane Roe") (some "99999-9999999-9")
          none none none 90 noFaults).1
        1 (some "Jane Roe") (some "99999-9999999-9") none none none 91 noFaults).2 =
      .ok 200 "already_exists"
        { id := 200, full_name := "Jane Roe", phone := none, gender := none,
          dob := none, cnic := "99999-9999999-9", created_at := 90 } ∧
    (postPatients
        (postPatients demoStore 1 (some "Jane Roe") (some "99999-9999999-9")
          none none none 90 noFaults).1
        1 (some "Jane Roe") (some "99999-9999999-9") none none none 91 noFaults).1 =
      (postPatients demoStore 1 (some "Jane Roe") (some "99999-9999999-9")
        none none none 90 noFaults).1 ∧
    ((postPatients
        (postPatients demoStore 1 (some "Jane Roe") (some "99999-9999999-9")
          none none none 90 noFaults).1
        1 (some "Jane Roe") (some "99999-9999999-9") none none none 91
        noFaults).1.patient_profiles.filter
      (fun p => p.cnic == "99999-9999999-9" && p.hospital_id == some 10)).length = 1 :=
  C2_idempotent demoStore 1 1 10 asst1 asst1 "Jane Roe" "99999-9999999-9"
    none none none 90 91 (by decide) (by decide) rfl rfl rfl rfl rfl rfl

end MedScribe
